import Mathlib

/-!
Shallow embedding of `ai-backend/api/flask_api.py`: a Flask HTTP gateway around
an external chatbot collaborator (`UNYCompassBot`).  Python dicts serialized by
`jsonify` become association lists in insertion order; exceptions raised by the
collaborator become `Except`; the nondeterministic `str(datetime.now())` is a
`now : String` parameter; the module-level globals `CHATBOT_READY` /
`CHATBOT_ERROR` / `bot`, written exactly once at startup, become the `Init`
value every handler receives.
-/

namespace UNYCompass

/-- JSON scalar values appearing in the gateway's request and response bodies. -/
inductive JVal where
  | str (s : String)
  | bool (b : Bool)
  | int (n : Int)
  | null
  deriving DecidableEq

/-- A JSON object: key/value pairs in insertion order, as produced by `jsonify`
of a Python dict. -/
abbrev JObj := List (String × JVal)

/-- An HTTP response body: plain text (the empty string returned for OPTIONS
requests) or a JSON object. -/
inductive RBody where
  | text (s : String)
  | json (o : JObj)
  deriving DecidableEq

/-- Whether a response body is a JSON object carrying key `k`
(Python `"k" in body`). -/
def RBody.hasKey (b : RBody) (k : String) : Bool :=
  match b with
  | .text _ => false
  | .json o => (o.lookup k).isSome

/-- Value stored under key `k` of a JSON response body, if any. -/
def RBody.get (b : RBody) (k : String) : Option JVal :=
  match b with
  | .text _ => none
  | .json o => o.lookup k

/-- An HTTP response: status code plus body.  Flask's `jsonify(...)` with no
explicit code is status 200. -/
structure HttpResponse where
  status : Nat
  body : RBody
  deriving DecidableEq

/-- The external collaborator (the `UNYCompassBot` instance `bot`).
`answer_question(question, session_id=None)` returns an answer string or raises;
`clear_session_memory(session_id)` returns nothing or raises.  Raising is
modelled with `Except String`. -/
structure Bot where
  answer_question : String → Option Int → Except String String
  clear_session_memory : Int → Except String Unit

/-- Outcome of the one-time startup block of flask_api.py: on success
`CHATBOT_READY = True`, `CHATBOT_ERROR = None` and `bot` is the constructed
instance; on exception `CHATBOT_READY = False`, `CHATBOT_ERROR = str(e)`,
`bot = None`. -/
inductive Init where
  | ok (bot : Bot)
  | failed (err : String)

/-- The global `CHATBOT_READY`. -/
def CHATBOT_READY : Init → Bool
  | .ok _ => true
  | .failed _ => false

/-- The global `CHATBOT_ERROR` (None on success, `str(e)` on failure). -/
def CHATBOT_ERROR : Init → Option String
  | .ok _ => none
  | .failed e => some e

/-- The characters stripped by Python `str.strip()` with no argument, for the
ASCII range used by this API (space, tab, newline, carriage return, vertical
tab, form feed). -/
def pyWhitespace (c : Char) : Bool :=
  c = ' ' || c = '\t' || c = '\n' || c = '\r' || c = '\x0b' || c = '\x0c'

/-- Python `s.strip()`: remove leading and trailing whitespace. -/
def pyStrip (s : String) : String :=
  ⟨((s.toList.dropWhile pyWhitespace).reverse.dropWhile pyWhitespace).reverse⟩

/-- The fields of the JSON request body that the ask endpoints read:
`data['message']` and `data.get('session_id')`.  The outer `Option` at the call
sites models `request.get_json()` returning a falsy value (`None` or `{}`); a
`message := none` models a JSON object without a `'message'` key. -/
structure ReqData where
  message : Option String
  session_id : Option Int
  deriving DecidableEq

/-- `ask_question(question)` from flask_api.py.  Checks `CHATBOT_READY` first,
then `not question or not question.strip()`, then calls
`bot.answer_question(question.strip())` (no session argument, i.e. the default
`session_id=None`), catching any exception.  Returns the dict the Python
function returns. -/
def ask_question (init : Init) (now : String) (question : String) : JObj :=
  match init with
  | .failed err => [("error", .str ("Chatbot not available: " ++ err))]
  | .ok bot =>
    if question = "" || pyStrip question = "" then
      [("error", .str "Question cannot be empty")]
    else
      match bot.answer_question (pyStrip question) none with
      | .error e => [("error", .str ("Error processing question: " ++ e))]
      | .ok answer =>
        [("success", .bool true), ("question", .str question),
         ("answer", .str answer), ("timestamp", .str now)]

/-- `ask_question_with_session(question, session_id=None)` from flask_api.py:
identical to `ask_question` except the session id is forwarded to
`bot.answer_question(question.strip(), session_id=session_id)`. -/
def ask_question_with_session (init : Init) (now : String) (question : String)
    (session_id : Option Int) : JObj :=
  match init with
  | .failed err => [("error", .str ("Chatbot not available: " ++ err))]
  | .ok bot =>
    if question = "" || pyStrip question = "" then
      [("error", .str "Question cannot be empty")]
    else
      match bot.answer_question (pyStrip question) session_id with
      | .error e => [("error", .str ("Error processing question: " ++ e))]
      | .ok answer =>
        [("success", .bool true), ("question", .str question),
         ("answer", .str answer), ("timestamp", .str now)]

/-- The `POST /chat` handler `chat()`.  `not data or 'message' not in data`
yields 400; otherwise it calls `ask_question(data['message'])`; a returned dict
containing `"error"` yields 500 with that dict as body, else 200 with
`{question, response, timestamp}` read from the returned dict (the fallback arm
models the `KeyError` Flask would turn into an error response; it is
unreachable because the success dict always carries the three keys). -/
def chat (init : Init) (now : String) (data : Option ReqData) : HttpResponse :=
  match data with
  | none => ⟨400, .json [("error", .str "Please provide a 'message' field in your request")]⟩
  | some d =>
    match d.message with
    | none => ⟨400, .json [("error", .str "Please provide a 'message' field in your request")]⟩
    | some m =>
      let response := ask_question init now m
      if (response.lookup "error").isSome then
        ⟨500, .json response⟩
      else
        match response.lookup "question", response.lookup "answer",
              response.lookup "timestamp" with
        | some q, some a, some t =>
          ⟨200, .json [("question", q), ("response", a), ("timestamp", t)]⟩
        | _, _, _ => ⟨500, .text "KeyError"⟩

/-- Model of the f-string interpolation of a value that may be `None`
(Python prints `None` for it). -/
def pyStr : Option String → String
  | none => "None"
  | some s => s

/-- The `GET /` handler `health_check()`. -/
def health_check (init : Init) : HttpResponse :=
  ⟨200, .json [("status", .str "healthy"),
               ("message", .str "Hunter College Chatbot API is running"),
               ("chatbot_ready", .bool (CHATBOT_READY init))]⟩

/-- The `GET /status` handler `status()`. -/
def status (init : Init) : HttpResponse :=
  ⟨200, .json [("status", .str (if CHATBOT_READY init then "ready" else "error")),
               ("chatbot_ready", .bool (CHATBOT_READY init)),
               ("error", if CHATBOT_READY init then JVal.null
                         else (CHATBOT_ERROR init).elim JVal.null JVal.str)]⟩

/-- HTTP methods the gateway's routes declare. -/
inductive Method where
  | GET
  | POST
  | OPTIONS
  deriving DecidableEq

/-- The `GET/OPTIONS /api/chatbot/status` handler `chatbot_status()`:
an OPTIONS request returns `('', 200)` before anything else runs. -/
def chatbot_status (init : Init) (method : Method) : HttpResponse :=
  if method = .OPTIONS then ⟨200, .text ""⟩
  else
    ⟨200, .json [("status", .str (if CHATBOT_READY init then "online" else "error")),
                 ("pythonWorking", .bool (CHATBOT_READY init)),
                 ("message", .str (if CHATBOT_READY init then "Hunter AI chatbot is ready"
                                   else "Chatbot error: " ++ pyStr (CHATBOT_ERROR init))),
                 ("service", .str "chatbot")]⟩

/-- The `POST/OPTIONS /api/chatbot/ask` handler `chatbot_ask()`: OPTIONS
short-circuits to `('', 200)`; otherwise validation and delegation mirror
`chat()` but through `ask_question_with_session(message, session_id)`, and the
success body additionally carries `session_id` (JSON `null` when the request
had none). -/
def chatbot_ask (init : Init) (now : String) (method : Method)
    (data : Option ReqData) : HttpResponse :=
  if method = .OPTIONS then ⟨200, .text ""⟩
  else
    match data with
    | none => ⟨400, .json [("error", .str "Please provide a 'message' field in your request")]⟩
    | some d =>
      match d.message with
      | none => ⟨400, .json [("error", .str "Please provide a 'message' field in your request")]⟩
      | some m =>
        let session_id := d.session_id
        let response := ask_question_with_session init now m session_id
        if (response.lookup "error").isSome then
          ⟨500, .json response⟩
        else
          match response.lookup "question", response.lookup "answer",
                response.lookup "timestamp" with
          | some q, some a, some t =>
            ⟨200, .json [("question", q), ("response", a), ("timestamp", t),
                         ("session_id", session_id.elim JVal.null JVal.int)]⟩
          | _, _, _ => ⟨500, .text "KeyError"⟩

/-- The `POST /api/chatbot/reset/<int:session_id>` handler
`reset_session_memory(session_id)`. -/
def reset_session_memory (init : Init) (session_id : Int) : HttpResponse :=
  match init with
  | .failed _ => ⟨500, .json [("error", .str "Chatbot not available")]⟩
  | .ok bot =>
    match bot.clear_session_memory session_id with
    | .error e => ⟨500, .json [("error", .str ("Failed to reset session memory: " ++ e))]⟩
    | .ok _ => ⟨200, .json [("message", .str ("Memory reset for session " ++ toString session_id))]⟩

/-- Matcher for one `.*LITERAL` segment of the regex in `apply_cors`, applied at
the start of `cs`: consume any run of non-newline characters (regex `.`, which
excludes the newline) up to the first occurrence of `needle`, returning the
remainder after it.  For a pattern of the shape `L1.*L2.*L3` whose literals
contain no newline, taking the first occurrence decides the same language as
the backtracking regex engine: any successful split can be shifted left to the
first occurrence, the skipped characters all lying in the newline-free
region. -/
def star_then (needle : List Char) : List Char → Option (List Char)
  | [] => if needle = [] then some [] else none
  | c :: rest =>
    if needle.isPrefixOf (c :: rest) then some ((c :: rest).drop needle.length)
    else if c = '\n' then none
    else star_then needle rest

/-- The test `re.match(r"https:\/\/.*unycompass.*\.vercel\.app", origin)` from
`apply_cors`.  `re.match` anchors only at the START of the string — nothing
constrains what follows the matched prefix — and `.` matches any character
except a newline. -/
def trusted_origin_regex_match (origin : String) : Bool :=
  let cs := origin.toList
  let pre := "https://".toList
  if pre.isPrefixOf cs then
    match star_then "unycompass".toList (cs.drop pre.length) with
    | none => false
    | some rest => (star_then ".vercel.app".toList rest).isSome
  else false

/-- The CORS-relevant response headers. -/
structure CorsHeaders where
  allowOrigin : Option String
  allowCredentials : Option String
  allowMethods : Option String
  allowHeaders : Option String
  deriving DecidableEq

/-- A response carrying no CORS headers. -/
def noCorsHeaders : CorsHeaders := ⟨none, none, none, none⟩

/-- The full CORS header set `apply_cors` writes for a granted origin. -/
def grantedHeaders (origin : String) : CorsHeaders :=
  ⟨some origin, some "true", some "GET, POST, OPTIONS", some "Content-Type, Authorization"⟩

/-- The `@app.after_request` hook `apply_cors(response)`:
`if origin and re.match(...)` — a present, non-empty (truthy) Origin header
matching the regex gets the four headers overwritten to echo that origin;
otherwise the response passes through unchanged. -/
def apply_cors (origin : Option String) (h : CorsHeaders) : CorsHeaders :=
  match origin with
  | none => h
  | some o =>
    if o ≠ "" && trusted_origin_regex_match o then grantedHeaders o
    else h

/-- The static allow-list passed to the `CORS(app, origins=[...])` extension. -/
def cors_static_origins : List String :=
  ["http://localhost:3000", "https://unycompass.vercel.app"]

/-- Modelled from the spec: the `flask_cors.CORS` extension (library code, not
in this repository's source) grants the standard CORS headers, echoing the
request origin with credentials allowed, exactly to the origins of the static
allow-list; any other origin receives no headers from it. -/
def flask_cors_headers (origin : Option String) : CorsHeaders :=
  match origin with
  | none => noCorsHeaders
  | some o => if o ∈ cors_static_origins then grantedHeaders o else noCorsHeaders

/-- CORS headers of a response as seen by the client: the extension runs first,
then the `after_request` hook `apply_cors`. -/
def response_cors (origin : Option String) : CorsHeaders :=
  apply_cors origin (flask_cors_headers origin)

/-- The three routes registered under `/api/chatbot/`. -/
inductive ChatbotRoute where
  | statusR
  | ask (data : Option ReqData)
  | reset (session_id : Int)

/-- Dispatch of a request on the `/api/chatbot/*` routes.  The status and ask
handlers answer OPTIONS themselves (source lines shown above).  The reset route
declares only POST; modelled from the spec: "OPTIONS requests to any
/api/chatbot/* route return 200 with an empty body regardless of collaborator
state" — the automatic empty-200 OPTIONS answer for a route without its own
OPTIONS branch is framework behaviour (Flask/flask_cors) not present in this
repository's source. -/
def dispatch_chatbot (init : Init) (now : String) (method : Method) :
    ChatbotRoute → HttpResponse
  | .statusR => chatbot_status init method
  | .ask data => chatbot_ask init now method data
  | .reset sid =>
    if method = .OPTIONS then ⟨200, .text ""⟩
    else reset_session_memory init sid

/-- Every route of the application, with the data each handler reads. -/
inductive Route where
  | root
  | statusRoute
  | chatRoute (data : Option ReqData)
  | chatbot (r : ChatbotRoute)

/-- A request as the gateway sees it: method, route (with its parsed body) and
the wall-clock string a handler would interpolate. -/
structure Request where
  method : Method
  route : Route
  now : String

/-- Stateful reading of request handling.  The gateway's module-level state is
the triple (`CHATBOT_READY`, `CHATBOT_ERROR`, `bot`) held in `Init`; a handler
is a function from state and request to a response together with the state it
leaves behind.  No handler body in flask_api.py contains a `global` statement
or any assignment to these names, so each returns the state it was given. -/
def handle_request (init : Init) (req : Request) : HttpResponse × Init :=
  match req.route with
  | .root => (health_check init, init)
  | .statusRoute => (status init, init)
  | .chatRoute data => (chat init req.now data, init)
  | .chatbot r => (dispatch_chatbot init req.now req.method r, init)

/-- The gateway state after serving a whole sequence of requests. -/
def run_requests (init : Init) : List Request → Init
  | [] => init
  | req :: rest => run_requests (handle_request init req).2 rest

/-- A concrete collaborator stub returning a fixed answer and succeeding on
memory reset. -/
def demoBot : Bot :=
  ⟨fun _ _ => .ok "the answer", fun _ => .ok ()⟩

/-- A concrete collaborator stub echoing the question it received. -/
def echoBot : Bot :=
  ⟨fun q _ => .ok q, fun _ => .ok ()⟩

/-- A concrete collaborator stub raising on every call. -/
def failBot : Bot :=
  ⟨fun _ _ => .error "boom", fun _ => .error "boom"⟩

/-! Helper lemmas shared by the claim theorems. -/

theorem pyStrip_ne_empty_of (m : String) (h : pyStrip m ≠ "") : m ≠ "" := by
  intro hm
  exact h (by rw [hm]; rfl)

theorem ask_question_blank (b : Bot) (now m : String) (h : pyStrip m = "") :
    ask_question (.ok b) now m = [("error", .str "Question cannot be empty")] := by
  simp [ask_question, h]

theorem ask_question_with_session_blank (b : Bot) (now m : String) (sid : Option Int)
    (h : pyStrip m = "") :
    ask_question_with_session (.ok b) now m sid
      = [("error", .str "Question cannot be empty")] := by
  simp [ask_question_with_session, h]

theorem ask_question_success (b : Bot) (now m ans : String)
    (hm : pyStrip m ≠ "") (hb : b.answer_question (pyStrip m) none = .ok ans) :
    ask_question (.ok b) now m
      = [("success", .bool true), ("question", .str m),
         ("answer", .str ans), ("timestamp", .str now)] := by
  simp [ask_question, hm, pyStrip_ne_empty_of m hm, hb]

theorem ask_question_with_session_success (b : Bot) (now m ans : String) (sid : Option Int)
    (hm : pyStrip m ≠ "") (hb : b.answer_question (pyStrip m) sid = .ok ans) :
    ask_question_with_session (.ok b) now m sid
      = [("success", .bool true), ("question", .str m),
         ("answer", .str ans), ("timestamp", .str now)] := by
  simp [ask_question_with_session, hm, pyStrip_ne_empty_of m hm, hb]

theorem ask_question_error (b : Bot) (now m e : String)
    (hm : pyStrip m ≠ "") (hb : b.answer_question (pyStrip m) none = .error e) :
    ask_question (.ok b) now m
      = [("error", .str ("Error processing question: " ++ e))] := by
  simp [ask_question, hm, pyStrip_ne_empty_of m hm, hb]

theorem ask_question_with_session_error (b : Bot) (now m e : String) (sid : Option Int)
    (hm : pyStrip m ≠ "") (hb : b.answer_question (pyStrip m) sid = .error e) :
    ask_question_with_session (.ok b) now m sid
      = [("error", .str ("Error processing question: " ++ e))] := by
  simp [ask_question_with_session, hm, pyStrip_ne_empty_of m hm, hb]

theorem chat_success (b : Bot) (now m ans : String) (sid : Option Int)
    (hm : pyStrip m ≠ "") (hb : b.answer_question (pyStrip m) none = .ok ans) :
    chat (.ok b) now (some ⟨some m, sid⟩)
      = ⟨200, .json [("question", .str m), ("response", .str ans),
                     ("timestamp", .str now)]⟩ := by
  simp [chat, ask_question_success b now m ans hm hb, List.lookup]

theorem chatbot_ask_success (b : Bot) (now m ans : String) (sid : Option Int)
    (hm : pyStrip m ≠ "") (hb : b.answer_question (pyStrip m) sid = .ok ans) :
    chatbot_ask (.ok b) now .POST (some ⟨some m, sid⟩)
      = ⟨200, .json [("question", .str m), ("response", .str ans),
                     ("timestamp", .str now),
                     ("session_id", sid.elim JVal.null JVal.int)]⟩ := by
  simp [chatbot_ask, ask_question_with_session_success b now m ans sid hm hb, List.lookup]

/-! Theorems settling the claims. -/

/-- C1, counterexample to the claim as stated: at the concrete request body
with `message = "   "` (whitespace-only) and a ready collaborator, `/chat`
responds with status 500, not the claimed 400 — `ask_question` rejects the
blank question with an error dict and `chat` maps every error dict to 500. -/
theorem C1_counterexample :
    (chat (.ok demoBot) "ts" (some ⟨some "   ", none⟩)).status = 500 ∧
    ¬ (chat (.ok demoBot) "ts" (some ⟨some "   ", none⟩)).status = 400 ∧
    (chatbot_ask (.ok demoBot) "ts" .POST (some ⟨some "   ", none⟩)).status = 500 := by
  decide

/-- C1 (amended): on `/chat` and `/api/chatbot/ask`, a request body that is
missing or lacks the `message` field is answered 400 with an `error` key, and
the response is a constant independent of the gateway state, so the
collaborator is never invoked; a present but empty or whitespace-only
`message` is answered 500 (not 400) with an `error` key, and the response does
not depend on the collaborator, so `answer_question` is never invoked. -/
theorem C1_missing_or_blank_message :
    (∀ (init : Init) (now : String),
      chat init now none
        = ⟨400, .json [("error", .str "Please provide a 'message' field in your request")]⟩) ∧
    (∀ (init : Init) (now : String) (sid : Option Int),
      chat init now (some ⟨none, sid⟩)
        = ⟨400, .json [("error", .str "Please provide a 'message' field in your request")]⟩) ∧
    (∀ (init : Init) (now : String),
      chatbot_ask init now .POST none
        = ⟨400, .json [("error", .str "Please provide a 'message' field in your request")]⟩) ∧
    (∀ (init : Init) (now : String) (sid : Option Int),
      chatbot_ask init now .POST (some ⟨none, sid⟩)
        = ⟨400, .json [("error", .str "Please provide a 'message' field in your request")]⟩) ∧
    (∀ (b : Bot) (now m : String) (sid : Option Int), pyStrip m = "" →
      chat (.ok b) now (some ⟨some m, sid⟩)
        = ⟨500, .json [("error", .str "Question cannot be empty")]⟩) ∧
    (∀ (b : Bot) (now m : String) (sid : Option Int), pyStrip m = "" →
      chatbot_ask (.ok b) now .POST (some ⟨some m, sid⟩)
        = ⟨500, .json [("error", .str "Question cannot be empty")]⟩) := by
  refine ⟨?_, ?_, ?_, ?_, ?_, ?_⟩
  · intro init now; rfl
  · intro init now sid; rfl
  · intro init now; rfl
  · intro init now sid; rfl
  · intro b now m sid h
    simp [chat, ask_question_blank b now m h, List.lookup]
  · intro b now m sid h
    simp [chatbot_ask, ask_question_with_session_blank b now m sid h, List.lookup]

/-- C1 witness: the amended statement applied at concrete inputs — a missing
`message` gives the 400 error response, and the blank message `" "` (with
`pyStrip " " = ""`) gives the 500 error response. -/
theorem C1_witness :
    chat (.ok demoBot) "ts" none
      = ⟨400, .json [("error", .str "Please provide a 'message' field in your request")]⟩ ∧
    chat (.ok demoBot) "ts" (some ⟨some " ", none⟩)
      = ⟨500, .json [("error", .str "Question cannot be empty")]⟩ :=
  ⟨C1_missing_or_blank_message.1 (.ok demoBot) "ts",
   C1_missing_or_blank_message.2.2.2.2.1 demoBot "ts" " " none (by decide)⟩

/-- C2: the gateway behaves as claimed on the claim's own examples — the
allow-listed and `*.vercel.app`-subdomain origins get the headers echoing the
origin with credentials, and `https://evil.example.com` gets none — but the
policy "every other origin receives no CORS headers" fails: the origin
`https://unycompass.vercel.app.evil.com` is in neither the static allow-list
nor the trusted `*.vercel.app` family (its hostname does not even end in
`.vercel.app`), yet it is granted the full header set, because
`re.match(r"https:\/\/.*unycompass.*\.vercel\.app", origin)` in `apply_cors`
anchors only at the start of the string, so any origin extending a matching
prefix is accepted.  The spec states the suffix-anchored policy as an explicit
security requirement; the unanchored regex is the slip in the code. -/
theorem C2_cors_code_bug :
    response_cors (some "http://localhost:3000") = grantedHeaders "http://localhost:3000" ∧
    response_cors (some "https://unycompass.vercel.app")
      = grantedHeaders "https://unycompass.vercel.app" ∧
    response_cors (some "https://foo.unycompass.vercel.app")
      = grantedHeaders "https://foo.unycompass.vercel.app" ∧
    response_cors (some "https://evil.example.com") = noCorsHeaders ∧
    response_cors none = noCorsHeaders ∧
    response_cors (some "https://unycompass.vercel.app.evil.com")
      = grantedHeaders "https://unycompass.vercel.app.evil.com" ∧
    ¬ "https://unycompass.vercel.app.evil.com" ∈ cors_static_origins ∧
    ".vercel.app".toList.isSuffixOf
      "https://unycompass.vercel.app.evil.com".toList = false := by
  decide

/-- C3, counterexample to the claim as stated: with initialization failed
(captured text "init boom"), a `/chat` request with no `message` field is
answered 400, not the claimed 500 — `chat()` validates the body before
`ask_question` ever consults the readiness flag; moreover the reset endpoint's
500 body is the fixed text "Chatbot not available", which does not reference
the captured failure text; and an OPTIONS request to `/api/chatbot/ask`
returns 200. -/
theorem C3_counterexample :
    (chat (.failed "init boom") "ts" none).status = 400 ∧
    ¬ (chat (.failed "init boom") "ts" none).status = 500 ∧
    reset_session_memory (.failed "init boom") 7
      = ⟨500, .json [("error", .str "Chatbot not available")]⟩ ∧
    (chatbot_ask (.failed "init boom") "ts" .OPTIONS (some ⟨some "hello", none⟩)).status
      = 200 := by
  decide

/-- C3 (amended): after a failed initialization with captured text `e`, every
POST ask request whose body does carry a `message` field is answered 500 with
an error referencing `e` ("Chatbot not available: e"); a request missing the
`message` field is still answered 400 by validation; the reset endpoint is
answered 500 with the fixed error "Chatbot not available" (not referencing
`e`); the health endpoint reports `chatbot_ready: false` and the status
endpoints report `status: "error"` (the `/status` body carrying `e`). -/
theorem C3_init_failure_behaviour (e now m : String) (sid : Option Int) (sid2 : Int) :
    chat (.failed e) now (some ⟨some m, sid⟩)
      = ⟨500, .json [("error", .str ("Chatbot not available: " ++ e))]⟩ ∧
    chatbot_ask (.failed e) now .POST (some ⟨some m, sid⟩)
      = ⟨500, .json [("error", .str ("Chatbot not available: " ++ e))]⟩ ∧
    (chat (.failed e) now none).status = 400 ∧
    (chatbot_ask (.failed e) now .POST none).status = 400 ∧
    reset_session_memory (.failed e) sid2
      = ⟨500, .json [("error", .str "Chatbot not available")]⟩ ∧
    (health_check (.failed e)).body.get "chatbot_ready" = some (.bool false) ∧
    (status (.failed e)).body.get "status" = some (.str "error") ∧
    (status (.failed e)).body.get "error" = some (.str e) ∧
    (chatbot_status (.failed e) .GET).body.get "status" = some (.str "error") := by
  refine ⟨?_, ?_, rfl, rfl, rfl, rfl, rfl, rfl, rfl⟩
  · simp [chat, ask_question, List.lookup]
  · simp [chatbot_ask, ask_question_with_session, List.lookup]

/-- C4: whenever the collaborator call raises — `answer_question` under `/chat`
or `/api/chatbot/ask`, or `clear_session_memory` under the reset endpoint —
the handler catches it at the call site and returns an ordinary HTTP 500
response whose body wraps the exception text; in this embedding the handlers
are total functions into `HttpResponse`, so the equations also state that the
exception never escapes the handler and is never dropped. -/
theorem C4_collaborator_exception_caught :
    (∀ (b : Bot) (now m e : String) (sid : Option Int),
      pyStrip m ≠ "" → b.answer_question (pyStrip m) none = .error e →
      chat (.ok b) now (some ⟨some m, sid⟩)
        = ⟨500, .json [("error", .str ("Error processing question: " ++ e))]⟩) ∧
    (∀ (b : Bot) (now m e : String) (sid : Option Int),
      pyStrip m ≠ "" → b.answer_question (pyStrip m) sid = .error e →
      chatbot_ask (.ok b) now .POST (some ⟨some m, sid⟩)
        = ⟨500, .json [("error", .str ("Error processing question: " ++ e))]⟩) ∧
    (∀ (b : Bot) (e : String) (sid : Int),
      b.clear_session_memory sid = .error e →
      reset_session_memory (.ok b) sid
        = ⟨500, .json [("error", .str ("Failed to reset session memory: " ++ e))]⟩) := by
  refine ⟨?_, ?_, ?_⟩
  · intro b now m e sid hm hb
    simp [chat, ask_question_error b now m e hm hb, List.lookup]
  · intro b now m e sid hm hb
    simp [chatbot_ask, ask_question_with_session_error b now m e sid hm hb, List.lookup]
  · intro b e sid hb
    simp [reset_session_memory, hb]

/-- C4 witness: with the always-raising collaborator stub, the ask and reset
handlers return the wrapped 500 responses. -/
theorem C4_witness :
    chat (.ok failBot) "ts" (some ⟨some "hello", none⟩)
      = ⟨500, .json [("error", .str "Error processing question: boom")]⟩ ∧
    reset_session_memory (.ok failBot) 7
      = ⟨500, .json [("error", .str "Failed to reset session memory: boom")]⟩ :=
  ⟨C4_collaborator_exception_caught.1 failBot "ts" "hello" "boom" none (by decide) rfl,
   C4_collaborator_exception_caught.2.2 failBot "boom" 7 rfl⟩

/-- C5: a `POST /chat` request with a non-blank `message`, served by a ready
collaborator whose `answer_question` returns the string `ans`, is answered 200
with body `question` equal to the input message, `response` equal to `ans`,
and a `timestamp` field. -/
theorem C5_valid_message_success (b : Bot) (now m ans : String) (sid : Option Int)
    (hm : pyStrip m ≠ "") (hb : b.answer_question (pyStrip m) none = .ok ans) :
    chat (.ok b) now (some ⟨some m, sid⟩)
      = ⟨200, .json [("question", .str m), ("response", .str ans),
                     ("timestamp", .str now)]⟩ :=
  chat_success b now m ans sid hm hb

/-- C5 witness: the fixed-answer collaborator stub on message "hello". -/
theorem C5_witness :
    chat (.ok demoBot) "ts" (some ⟨some "hello", none⟩)
      = ⟨200, .json [("question", .str "hello"), ("response", .str "the answer"),
                     ("timestamp", .str "ts")]⟩ :=
  C5_valid_message_success demoBot "ts" "hello" "the answer" none (by decide) rfl

/-- C6: a successful `POST /api/chatbot/ask` request carrying a session id
passes that id to the session-aware `answer_question` variant — the response
equals the collaborator's answer at exactly the argument pair
`(pyStrip m, some sid)` — and the 200 body carries the same `session_id`
value. -/
theorem C6_session_forwarded (b : Bot) (now m ans : String) (sid : Int)
    (hm : pyStrip m ≠ "") (hb : b.answer_question (pyStrip m) (some sid) = .ok ans) :
    chatbot_ask (.ok b) now .POST (some ⟨some m, some sid⟩)
      = ⟨200, .json [("question", .str m), ("response", .str ans),
                     ("timestamp", .str now), ("session_id", .int sid)]⟩ :=
  chatbot_ask_success b now m ans (some sid) hm hb

/-- C6 witness: the claim's own example — message "hello" with session id 42;
the body carries `session_id: 42`. -/
theorem C6_witness :
    chatbot_ask (.ok demoBot) "ts" .POST (some ⟨some "hello", some 42⟩)
      = ⟨200, .json [("question", .str "hello"), ("response", .str "the answer"),
                     ("timestamp", .str "ts"), ("session_id", .int 42)]⟩ ∧
    (chatbot_ask (.ok demoBot) "ts" .POST (some ⟨some "hello", some 42⟩)).body.get
      "session_id" = some (.int 42) := by
  refine ⟨C6_session_forwarded demoBot "ts" "hello" "the answer" 42 (by decide) rfl, ?_⟩
  rw [C6_session_forwarded demoBot "ts" "hello" "the answer" 42 (by decide) rfl]
  decide

/-- C7: on `POST /api/chatbot/reset/<sid>` with a ready collaborator, a raising
`clear_session_memory` yields 500 with an `error` key, and a succeeding one
yields 200 with the confirmation message "Memory reset for session <sid>",
whose character sequence has the printed session identifier as a suffix (so
the message contains it). -/
theorem C7_reset_endpoint (b : Bot) (e : String) (sid : Int) :
    (b.clear_session_memory sid = .error e →
      (reset_session_memory (.ok b) sid).status = 500 ∧
      (reset_session_memory (.ok b) sid).body.hasKey "error" = true) ∧
    (b.clear_session_memory sid = .ok () →
      reset_session_memory (.ok b) sid
        = ⟨200, .json [("message",
            .str ("Memory reset for session " ++ toString sid))]⟩ ∧
      (toString sid).toList <:+ ("Memory reset for session " ++ toString sid).toList) := by
  constructor
  · intro hb
    simp [reset_session_memory, hb, RBody.hasKey, List.lookup]
  · intro hb
    refine ⟨by simp [reset_session_memory, hb], ?_⟩
    rcases hs : toString sid with ⟨l⟩
    exact ⟨"Memory reset for session ".toList, rfl⟩

/-- C7 witness: at session 7, the always-raising stub gives a 500 with an
`error` key, and the always-succeeding stub gives the 200 confirmation
naming session 7. -/
theorem C7_witness :
    ((reset_session_memory (.ok failBot) 7).status = 500 ∧
      (reset_session_memory (.ok failBot) 7).body.hasKey "error" = true) ∧
    reset_session_memory (.ok demoBot) 7
      = ⟨200, .json [("message", .str "Memory reset for session 7")]⟩ :=
  ⟨(C7_reset_endpoint failBot "boom" 7).1 rfl,
   ((C7_reset_endpoint demoBot "" 7).2 rfl).1⟩

/-- C8: an OPTIONS request to any of the three `/api/chatbot/*` routes is
answered 200 with an empty body; the response is a constant — the same for
every gateway state, ready or failed, and for every collaborator — so the
collaborator is never invoked.  For the reset route, which declares only POST,
the empty-200 answer is the framework's automatic OPTIONS handling, modelled
from the spec inside `dispatch_chatbot`. -/
theorem C8_options_empty_200 (init : Init) (now : String) (r : ChatbotRoute) :
    dispatch_chatbot init now .OPTIONS r = ⟨200, .text ""⟩ := by
  cases r <;> rfl

/-- C9: the readiness state (`CHATBOT_READY`, `CHATBOT_ERROR`, the `bot`
handle, all held in `Init`) is written only by the startup block; every
request handler — the health and status handlers included — returns the state
it was given, and consequently the state after serving any sequence of
requests equals the state the startup block produced. -/
theorem C9_state_write_once :
    (∀ (init : Init) (req : Request), (handle_request init req).2 = init) ∧
    (∀ (reqs : List Request) (init : Init), run_requests init reqs = init) := by
  have hone : ∀ (init : Init) (req : Request), (handle_request init req).2 = init := by
    intro init req
    cases hr : req.route <;> simp [handle_request, hr]
  refine ⟨hone, ?_⟩
  intro reqs
  induction reqs with
  | nil => intro init; rfl
  | cons req rest ih =>
    intro init
    rw [run_requests, hone init req]
    exact ih init

/-- C10: the collaborator receives the whitespace-stripped message while the
`question` field of the 200 body echoes the original input unchanged: for any
collaborator, the `response` field equals `answer_question` evaluated at
exactly `pyStrip m` (with the request's session id), and the `question` field
is `m` itself. -/
theorem C10_strip_forwarded (b : Bot) (now m ans : String) (sid : Int)
    (hm : pyStrip m ≠ "") :
    (b.answer_question (pyStrip m) none = .ok ans →
      chat (.ok b) now (some ⟨some m, none⟩)
        = ⟨200, .json [("question", .str m), ("response", .str ans),
                       ("timestamp", .str now)]⟩) ∧
    (b.answer_question (pyStrip m) (some sid) = .ok ans →
      chatbot_ask (.ok b) now .POST (some ⟨some m, some sid⟩)
        = ⟨200, .json [("question", .str m), ("response", .str ans),
                       ("timestamp", .str now), ("session_id", .int sid)]⟩) :=
  ⟨fun hb => chat_success b now m ans none hm hb,
   fun hb => chatbot_ask_success b now m ans (some sid) hm hb⟩

/-- C10 witness: the echoing collaborator stub on the padded message
`"  hi  "` — the answer it produces (and the `response` field) is the stripped
`"hi"`, while the `question` field still reads `"  hi  "`. -/
theorem C10_witness :
    pyStrip "  hi  " = "hi" ∧
    chat (.ok echoBot) "ts" (some ⟨some "  hi  ", none⟩)
      = ⟨200, .json [("question", .str "  hi  "), ("response", .str "hi"),
                     ("timestamp", .str "ts")]⟩ :=
  ⟨by decide, (C10_strip_forwarded echoBot "ts" "  hi  " "hi" 5 (by decide)).1 rfl⟩

end UNYCompass
